import Mathlib

/-!
Verification of the memory-based collaborative-filtering notebook
(last-fm recommender).  The notebook builds an item × user play-count
matrix from (user, artist, plays) records via
`df.groupby(["user","artist"]).sum()` followed by
`df.pivot(index="artist", columns="user", values="plays").fillna(0)` and
`csr_matrix(matrix)`, computes pairwise cosine distances over items and
over users with `sklearn.metrics.pairwise_distances(metric="cosine")`,
and derives prediction matrices with the two branches of `predict`.
Weights are embedded as rationals where the computation is exact and as
real numbers where the source divides and takes square roots.  numpy
floating-point division by zero yields a non-finite value (inf or NaN);
such entries are modelled as `none : Option ℝ`.
-/

/-- One row of the merged dataframe: a raw interaction record
(`user`, `artist`, `plays`). -/
structure InteractionRecord where
  user : String
  artist : String
  plays : ℚ
deriving DecidableEq

/-- The aggregation performed by `df.groupby(["user","artist"]).sum()` for
a single key: the total plays over all records with user `u` and artist `a`. -/
def groupedSum (recs : List InteractionRecord) (u a : String) : ℚ :=
  ((recs.filter fun r => r.user == u && r.artist == a).map (fun r => r.plays)).sum

/-- The distinct (user, artist) keys of the input, one per group produced
by `groupby`. -/
def groupKeys (recs : List InteractionRecord) : List (String × String) :=
  (recs.map fun r => (r.user, r.artist)).dedup

/-- The grouped dataframe `df.groupby(["user","artist"], as_index=False).sum()`:
one row per distinct (user, artist) key carrying the summed plays.  pandas
orders the groups by sorted key; the pivot below locates cells by label, so
the resulting matrix does not depend on that order and the rows are kept in
first-occurrence order here. -/
def grouped (recs : List InteractionRecord) : List ((String × String) × ℚ) :=
  (groupKeys recs).map fun p => (p, groupedSum recs p.1 p.2)

/-- One cell of
`matrix = df.pivot(index="artist", columns="user", values="plays").fillna(0)`:
the grouped value at (artist `a`, user `u`) when that pair occurs in the
grouped dataframe, and the `fillna` value 0 otherwise. -/
def pivotCell (recs : List InteractionRecord) (a u : String) : ℚ :=
  match (grouped recs).find? (fun e => e.1 == (u, a)) with
  | some e => e.2
  | none => 0

/-- The row labels of the pivoted matrix: the distinct artists, sorted
(pandas sorts the pivot index lexically), giving the artist → row-index map. -/
def pivotIndex (recs : List InteractionRecord) : List String :=
  (recs.map fun r => r.artist).toFinset.sort (· ≤ ·)

/-- The column labels of the pivoted matrix: the distinct users, sorted,
giving the user → column-index map. -/
def pivotColumns (recs : List InteractionRecord) : List String :=
  (recs.map fun r => r.user).toFinset.sort (· ≤ ·)

/-- The stored entries of `matrix_sparse = csr_matrix(matrix)`: only the
cells of the pivoted matrix whose value is nonzero are kept. -/
def csrEntries (recs : List InteractionRecord) : List ((String × String) × ℚ) :=
  (grouped recs).filter fun e => e.2 != 0

/-- Reading one cell back out of the sparse matrix: the stored value when
present, an implicit zero otherwise. -/
def csrCell (recs : List InteractionRecord) (a u : String) : ℚ :=
  match (csrEntries recs).find? (fun e => e.1 == (u, a)) with
  | some e => e.2
  | none => 0

/-- The dot product of two vectors of length `m`. -/
def dotp {m : ℕ} (a b : Fin m → ℝ) : ℝ := ∑ k, a k * b k

/-- The row norm used by sklearn `normalize`: the Euclidean norm, except
that a zero norm is replaced by 1, so an all-zero row is left unchanged
instead of triggering a division by zero. -/
noncomputable def safeNorm {m : ℕ} (a : Fin m → ℝ) : ℝ :=
  if Real.sqrt (dotp a a) = 0 then 1 else Real.sqrt (dotp a a)

/-- One row of sklearn `normalize(X)`. -/
noncomputable def normalizeRow {m : ℕ} (a : Fin m → ℝ) : Fin m → ℝ :=
  fun k => a k / safeNorm a

/-- Entry (i, j) of `sklearn.metrics.pairwise_distances(X, metric="cosine")`:
the cosine similarity of the normalized rows turned into a distance
`1 - sim`, clipped into [0, 2] by `np.clip`, after which `cosine_distances`
overwrites the whole diagonal with 0. -/
noncomputable def pairwise_distances {n m : ℕ} (X : Fin n → Fin m → ℝ) (i j : Fin n) : ℝ :=
  if i = j then 0
  else min 2 (max 0 (1 - dotp (normalizeRow (X i)) (normalizeRow (X j))))

/-- The transpose `X.T` of a matrix. -/
def transpose {n m : ℕ} (X : Fin n → Fin m → ℝ) : Fin m → Fin n → ℝ := fun j i => X i j

/-- `item_similarity = pairwise_distances(matrix_sparse, metric="cosine")`,
computed over the item rows of the item × user matrix. -/
noncomputable def item_similarity {I U : ℕ} (X : Fin I → Fin U → ℝ) : Fin I → Fin I → ℝ :=
  pairwise_distances X

/-- `user_similarity = pairwise_distances(matrix_sparse.T, metric="cosine")`,
computed over the user rows of the transposed matrix. -/
noncomputable def user_similarity {I U : ℕ} (X : Fin I → Fin U → ℝ) : Fin U → Fin U → ℝ :=
  pairwise_distances (transpose X)

/-- Floating-point division as numpy performs it: a zero divisor produces a
non-finite value (inf or NaN), never a real number; any such non-finite
outcome is modelled as `none`, a well-defined quotient as `some`. -/
noncomputable def npDiv (x y : ℝ) : Option ℝ := if y = 0 then none else some (x / y)

/-- `mean_user_rating = matrix.mean(axis=1)` on the users × items matrix:
the mean of the user's full dense row, zeros included (the row sum divided
by the number of items). -/
noncomputable def mean_user_rating {U I : ℕ} (m : Fin U → Fin I → ℝ) (u : Fin U) : ℝ :=
  (∑ i, m u i) / (I : ℝ)

/-- The `type="item"` branch of `predict`:
`pred = matrix.dot(similarity) / np.array([np.abs(similarity).sum(axis=1)])`.
Entry (u, i) divides `Σ_j m[u,j]·sim[j,i]` by the absolute row sum
`Σ_j |sim[i,j]|` (the 1 × items denominator row is broadcast over the user
rows). -/
noncomputable def predict_item {U I : ℕ} (m : Fin U → Fin I → ℝ)
    (similarity : Fin I → Fin I → ℝ) (u : Fin U) (i : Fin I) : Option ℝ :=
  npDiv (∑ j, m u j * similarity j i) (∑ j, |similarity i j|)

/-- The `type="user"` branch of `predict`:
`pred = mean_user_rating + similarity.dot(matrix - mean_user_rating) /
np.array([np.abs(similarity).sum(axis=1)]).T`.
Entry (u, i) adds `mean[u]` to `Σ_v sim[u,v]·(m[v,i] - mean[v])` divided by
`Σ_v |sim[u,v]|` (the users × 1 denominator column is broadcast over the
item columns); adding `mean[u]` to a non-finite quotient stays non-finite. -/
noncomputable def predict_user {U I : ℕ} (m : Fin U → Fin I → ℝ)
    (similarity : Fin U → Fin U → ℝ) (u : Fin U) (i : Fin I) : Option ℝ :=
  (npDiv (∑ v, similarity u v * (m v i - mean_user_rating m v)) (∑ v, |similarity u v|)).map
    (fun q => mean_user_rating m u + q)

/-- `item_prediction = predict(matrix_sparse.T, item_similarity, type="item")`. -/
noncomputable def item_prediction {I U : ℕ} (X : Fin I → Fin U → ℝ)
    (u : Fin U) (i : Fin I) : Option ℝ :=
  predict_item (transpose X) (item_similarity X) u i

/-- `user_prediction = predict(matrix_sparse.T, user_similarity, type="user")`. -/
noncomputable def user_prediction {I U : ℕ} (X : Fin I → Fin U → ℝ)
    (u : Fin U) (i : Fin I) : Option ℝ :=
  predict_user (transpose X) (user_similarity X) u i

/-- Modelled from the spec: the eligible items of a user — the user's
prediction row itself or, when the exclusion option is set, the row without
the items the user already has a nonzero true interaction with. -/
def eligibleItems (row : List (String × ℚ)) (seen : List String) (excludeSeen : Bool) :
    List (String × ℚ) :=
  if excludeSeen then row.filter (fun e => !(seen.contains e.1)) else row

/-- Modelled from the spec: the recommendation order — higher predicted
score first, ties broken by ascending item identifier. -/
def recommendLe (p q : String × ℚ) : Bool :=
  decide (q.2 < p.2) || (p.2 == q.2 && decide (p.1 ≤ q.1))

/-- Modelled from the spec: the notebook stops at the prediction matrices
and contains no recommender, so `recommend` follows section 4.4 of the
spec: read the user's prediction row, optionally drop already-seen items,
sort by descending predicted score with ties broken by ascending item
identifier, and return the first N entries. -/
def recommend (row : List (String × ℚ)) (seen : List String) (excludeSeen : Bool) (N : ℕ) :
    List (String × ℚ) :=
  ((eligibleItems row seen excludeSeen).mergeSort recommendLe).take N

/-- Helper: looking a key up in an association list built by pairing each
key of `keys` with its value under `f` returns exactly `f k` when the key
occurs, and nothing otherwise. -/
theorem find?_pair_map {α β : Type} [BEq α] [LawfulBEq α] [DecidableEq α]
    (keys : List α) (f : α → β) (k : α) :
    (keys.map fun p => (p, f p)).find? (fun e => e.1 == k) =
      if k ∈ keys then some (k, f k) else none := by
  induction keys with
  | nil => simp
  | cons x xs ih =>
    simp only [List.map_cons]
    by_cases hx : x = k
    · subst hx
      rw [List.find?_cons_of_pos _ (by simp)]
      simp
    · rw [List.find?_cons_of_neg _ (by simpa using hx), ih]
      by_cases hk : k ∈ xs
      · rw [if_pos hk, if_pos (List.mem_cons_of_mem x hk)]
      · rw [if_neg hk, if_neg (by simp [List.mem_cons, hk, Ne.symm hx])]

/-- Helper: a (user, artist) pair outside the group keys matches no record,
so its total plays are zero. -/
theorem groupedSum_eq_zero_of_not_mem (recs : List InteractionRecord) (u a : String)
    (h : (u, a) ∉ groupKeys recs) : groupedSum recs u a = 0 := by
  unfold groupedSum
  have hf : recs.filter (fun r => r.user == u && r.artist == a) = [] := by
    rw [List.filter_eq_nil_iff]
    intro r hr hpr
    simp only [Bool.and_eq_true, beq_iff_eq] at hpr
    exact h (by
      unfold groupKeys
      rw [List.mem_dedup]
      exact List.mem_map.mpr ⟨r, hr, by rw [hpr.1, hpr.2]⟩)
  rw [hf]
  simp

/-- Helper: looking a key up in the grouped dataframe returns its groupby
sum when the key occurs in the input, and nothing otherwise. -/
theorem find?_grouped (recs : List InteractionRecord) (k : String × String) :
    (grouped recs).find? (fun e => e.1 == k) =
      if k ∈ groupKeys recs then some (k, groupedSum recs k.1 k.2) else none :=
  find?_pair_map (groupKeys recs) (fun p => groupedSum recs p.1 p.2) k

/-- Helper: every pivoted cell is the groupby sum of its (user, artist)
pair, whether or not the pair occurs in the input. -/
theorem pivotCell_eq_groupedSum (recs : List InteractionRecord) (a u : String) :
    pivotCell recs a u = groupedSum recs u a := by
  unfold pivotCell
  rw [find?_grouped]
  by_cases hm : (u, a) ∈ groupKeys recs
  · rw [if_pos hm]
  · rw [if_neg hm]
    exact (groupedSum_eq_zero_of_not_mem recs u a hm).symm

/-- Helper: looking a key up among the stored sparse entries returns its
groupby sum exactly when that sum is nonzero. -/
theorem find?_csrEntries (recs : List InteractionRecord) (k : String × String) :
    (csrEntries recs).find? (fun e => e.1 == k) =
      if k ∈ (groupKeys recs).filter (fun p => groupedSum recs p.1 p.2 != 0)
      then some (k, groupedSum recs k.1 k.2) else none := by
  have h1 : csrEntries recs =
      ((groupKeys recs).filter (fun p => groupedSum recs p.1 p.2 != 0)).map
        (fun p => (p, groupedSum recs p.1 p.2)) := by
    unfold csrEntries grouped
    rw [List.filter_map]
    rfl
  rw [h1]
  exact find?_pair_map _ (fun p => groupedSum recs p.1 p.2) k

/-- Helper: dropping the zero cells and reading back through the sparse
representation returns every cell of the pivoted matrix unchanged. -/
theorem csrCell_eq_pivotCell (recs : List InteractionRecord) (a u : String) :
    csrCell recs a u = pivotCell recs a u := by
  unfold csrCell pivotCell
  rw [find?_csrEntries, find?_grouped]
  by_cases hm : (u, a) ∈ groupKeys recs
  · by_cases hz : groupedSum recs u a = 0
    · rw [if_neg (by simp [List.mem_filter, hz]), if_pos hm]
      simpa using hz.symm
    · rw [if_pos (by simp [List.mem_filter, hm, hz]), if_pos hm]
  · rw [if_neg (by simp [List.mem_filter, hm]), if_neg hm]

/-- Helper: the groupby sum only depends on the multiset of input records,
not on their order. -/
theorem groupedSum_perm {recs recs' : List InteractionRecord}
    (h : recs.Perm recs') (u a : String) : groupedSum recs u a = groupedSum recs' u a :=
  List.Perm.sum_eq ((h.filter _).map _)

/-- C5: the built interaction matrix sums the weights of repeated
(user, item) pairs: each cell of the pivoted matrix equals the total plays
of all input records with that user and artist, not the first or the last
occurrence. -/
theorem duplicate_pairs_are_summed (recs : List InteractionRecord) (u a : String) :
    pivotCell recs a u =
      ((recs.filter fun r => r.user == u && r.artist == a).map (fun r => r.plays)).sum :=
  pivotCell_eq_groupedSum recs a u

/-- C6: building the matrix from any permutation of the input records gives
the same artist row-label list, the same user column-label list (both sorted
lexically, hence the same identifier-to-index assignment), and the same
weight in every cell. -/
theorem build_order_independent (recs recs' : List InteractionRecord)
    (h : recs.Perm recs') :
    pivotIndex recs = pivotIndex recs' ∧ pivotColumns recs = pivotColumns recs' ∧
      ∀ a u : String, pivotCell recs a u = pivotCell recs' a u := by
  refine ⟨?_, ?_, ?_⟩
  · unfold pivotIndex
    rw [List.toFinset_eq_of_perm _ _ (h.map _)]
  · unfold pivotColumns
    rw [List.toFinset_eq_of_perm _ _ (h.map _)]
  · intro a u
    rw [pivotCell_eq_groupedSum, pivotCell_eq_groupedSum, groupedSum_perm h]

/-- Witness for C6 at a concrete two-record permutation. -/
theorem build_order_independent_witness :
    pivotIndex [⟨"u1", "a", 2⟩, ⟨"u2", "b", 3⟩] = pivotIndex [⟨"u2", "b", 3⟩, ⟨"u1", "a", 2⟩] ∧
      pivotColumns [⟨"u1", "a", 2⟩, ⟨"u2", "b", 3⟩] =
        pivotColumns [⟨"u2", "b", 3⟩, ⟨"u1", "a", 2⟩] ∧
      ∀ a u : String,
        pivotCell [⟨"u1", "a", 2⟩, ⟨"u2", "b", 3⟩] a u =
          pivotCell [⟨"u2", "b", 3⟩, ⟨"u1", "a", 2⟩] a u :=
  build_order_independent _ _ (by decide)

/-- C7 counterexample: a record with an empty user identifier and a negative
weight is accepted: the build performs no validation and simply stores the
record's weight, rather than failing with a `ValidationError`. -/
theorem build_accepts_invalid_record :
    pivotCell [⟨"", "x", -5⟩] "x" "" = -5 := by
  simp [pivotCell, grouped, groupKeys, groupedSum, List.find?]

/-- C7 (amended): the build never fails: there is no validation anywhere in
the construction, and a record with a negative weight or an empty
identifier is grouped and pivoted into its cell like any other record. -/
theorem build_never_validates (recs : List InteractionRecord) (r : InteractionRecord)
    (hm : r ∈ recs) (_hbad : r.plays < 0 ∨ r.user = "" ∨ r.artist = "") :
    r ∈ recs.filter (fun s => s.user == r.user && s.artist == r.artist) ∧
      pivotCell recs r.artist r.user =
        ((recs.filter fun s => s.user == r.user && s.artist == r.artist).map
          (fun s => s.plays)).sum := by
  refine ⟨?_, pivotCell_eq_groupedSum recs r.artist r.user⟩
  rw [List.mem_filter]
  exact ⟨hm, by simp⟩

/-- Witness for C7 (amended) at a concrete invalid record. -/
theorem build_never_validates_witness :
    (⟨"", "x", -5⟩ : InteractionRecord) ∈
        ([⟨"", "x", -5⟩] : List InteractionRecord).filter
          (fun s => s.user == "" && s.artist == "x") ∧
      pivotCell [⟨"", "x", -5⟩] "x" "" =
        ((([⟨"", "x", -5⟩] : List InteractionRecord).filter
          (fun s => s.user == "" && s.artist == "x")).map (fun s => s.plays)).sum :=
  build_never_validates [⟨"", "x", -5⟩] ⟨"", "x", -5⟩ (by decide) (Or.inl (by norm_num))

/-- C10: when every input weight is non-negative, every cell of the pivoted
matrix is non-negative (an implicit zero or a sum of non-negative weights),
and the sparse matrix handed to the similarity and prediction stages returns
exactly the same cell values, so non-negativity is preserved. -/
theorem build_nonneg_preserved (recs : List InteractionRecord)
    (hpos : ∀ r ∈ recs, 0 ≤ r.plays) (a u : String) :
    0 ≤ pivotCell recs a u ∧ csrCell recs a u = pivotCell recs a u := by
  refine ⟨?_, csrCell_eq_pivotCell recs a u⟩
  rw [pivotCell_eq_groupedSum]
  unfold groupedSum
  apply List.sum_nonneg
  intro x hx
  obtain ⟨r, hr, rfl⟩ := List.mem_map.mp hx
  exact hpos r (List.mem_of_mem_filter hr)

/-- Witness for C10 at a concrete non-negative input. -/
theorem build_nonneg_preserved_witness :
    0 ≤ pivotCell [⟨"u1", "a", 5⟩] "a" "u1" ∧
      csrCell [⟨"u1", "a", 5⟩] "a" "u1" = pivotCell [⟨"u1", "a", 5⟩] "a" "u1" :=
  build_nonneg_preserved [⟨"u1", "a", 5⟩] (by decide) "a" "u1"

/-- Helper: the dot product is symmetric. -/
theorem dotp_comm {m : ℕ} (a b : Fin m → ℝ) : dotp a b = dotp b a :=
  Finset.sum_congr rfl fun _ _ => mul_comm _ _

/-- Helper: the dot product with an all-zero left factor is zero. -/
theorem dotp_zero_left {m : ℕ} (a b : Fin m → ℝ) (h : ∀ k, a k = 0) : dotp a b = 0 := by
  unfold dotp
  simp [h]

/-- Helper: the cosine pairwise-distance matrix is symmetric. -/
theorem pairwise_distances_comm {n m : ℕ} (X : Fin n → Fin m → ℝ) (i j : Fin n) :
    pairwise_distances X i j = pairwise_distances X j i := by
  unfold pairwise_distances
  by_cases h : i = j
  · subst h
    rfl
  · rw [if_neg h, if_neg (Ne.symm h), dotp_comm]

/-- Helper: every diagonal entry of the cosine pairwise-distance matrix is
zero, by the diagonal overwrite. -/
theorem pairwise_distances_self {n m : ℕ} (X : Fin n → Fin m → ℝ) (i : Fin n) :
    pairwise_distances X i i = 0 := by
  unfold pairwise_distances
  simp

/-- Helper: diagonal entries of the item-similarity matrix are zero. -/
theorem item_similarity_self {I U : ℕ} (X : Fin I → Fin U → ℝ) (i : Fin I) :
    item_similarity X i i = 0 :=
  pairwise_distances_self X i

/-- Helper: diagonal entries of the user-similarity matrix are zero. -/
theorem user_similarity_self {I U : ℕ} (X : Fin I → Fin U → ℝ) (u : Fin U) :
    user_similarity X u u = 0 :=
  pairwise_distances_self (transpose X) u

/-- C4: for every interaction matrix, the computed pairwise matrices
`item_similarity` and `user_similarity` are symmetric and every diagonal
entry is 0. -/
theorem similarity_symmetric_diagonal_zero {I U : ℕ} (X : Fin I → Fin U → ℝ) :
    (∀ i j, item_similarity X i j = item_similarity X j i) ∧
      (∀ i, item_similarity X i i = 0) ∧
      (∀ u v, user_similarity X u v = user_similarity X v u) ∧
      (∀ u, user_similarity X u u = 0) :=
  ⟨fun i j => pairwise_distances_comm X i j, fun i => item_similarity_self X i,
    fun u v => pairwise_distances_comm (transpose X) u v, fun u => user_similarity_self X u⟩

/-- C3 counterexample: the single item of the 1 × 1 all-zero matrix has a
zero-norm interaction vector, yet the computed pairwise entry for the pair
(0, 0) is 0, not 1 — the diagonal overwrite wins over the zero-norm
fallback. -/
theorem zero_norm_diagonal_not_one :
    pairwise_distances ![![(0 : ℝ)]] 0 0 = 0 ∧ (0 : ℝ) ≠ 1 :=
  ⟨pairwise_distances_self ![![(0 : ℝ)]] 0, by norm_num⟩

/-- C3 (amended): for every pair of distinct entities, if either entity's
interaction vector is all zero (zero norm), the computed cosine result for
the pair is exactly the real number 1 — never NaN or undefined; on the
diagonal the entry is instead 0 by the diagonal overwrite. -/
theorem zero_norm_distance_one {n m : ℕ} (X : Fin n → Fin m → ℝ) (i j : Fin n)
    (hne : i ≠ j) (hz : (∀ k, X i k = 0) ∨ (∀ k, X j k = 0)) :
    pairwise_distances X i j = 1 := by
  have key : ∀ a b : Fin m → ℝ, (∀ k, a k = 0) →
      dotp (normalizeRow a) (normalizeRow b) = 0 := by
    intro a b ha
    apply dotp_zero_left
    intro k
    unfold normalizeRow
    rw [ha k]
    exact zero_div _
  unfold pairwise_distances
  rw [if_neg hne]
  have hd : dotp (normalizeRow (X i)) (normalizeRow (X j)) = 0 := by
    rcases hz with ha | hb
    · exact key _ _ ha
    · rw [dotp_comm]
      exact key _ _ hb
  rw [hd, sub_zero, max_eq_right (by norm_num : (0 : ℝ) ≤ 1),
    min_eq_right (by norm_num : (1 : ℝ) ≤ 2)]

/-- Witness for C3 (amended): in a concrete 2 × 1 matrix whose first item
row is all zero, the computed distance to the other item is 1. -/
theorem zero_norm_distance_one_witness :
    pairwise_distances ![![(0 : ℝ)], ![(1 : ℝ)]] 0 1 = 1 :=
  zero_norm_distance_one ![![(0 : ℝ)], ![(1 : ℝ)]] 0 1 (by decide)
    (Or.inl (fun k => by fin_cases k; rfl))

/-- Helper: when the absolute similarity row-sum is zero, the item branch
divides zero by zero and the entry is non-finite. -/
theorem predict_item_none {U I : ℕ} (m : Fin U → Fin I → ℝ) (s : Fin I → Fin I → ℝ)
    (u : Fin U) (i : Fin I) (h : (∑ j, |s i j|) = 0) : predict_item m s u i = none := by
  unfold predict_item npDiv
  rw [if_pos h]

/-- Helper: when the absolute similarity row-sum is zero, the user branch
divides zero by zero and the entry is non-finite. -/
theorem predict_user_none {U I : ℕ} (m : Fin U → Fin I → ℝ) (s : Fin U → Fin U → ℝ)
    (u : Fin U) (i : Fin I) (h : (∑ v, |s u v|) = 0) : predict_user m s u i = none := by
  unfold predict_user npDiv
  rw [if_pos h]
  rfl

/-- C1 counterexample: with a single item (the 1 × 1 matrix [[5]]) the
similarity row is just the zero diagonal, its absolute sum is 0, and the
item-based prediction entry is the unguarded 0/0 — non-finite NaN
(`none`) — not the real number 0. -/
theorem item_prediction_zero_sum_not_zero :
    item_prediction ![![(5 : ℝ)]] 0 0 = none ∧ (none : Option ℝ) ≠ some 0 := by
  refine ⟨?_, by simp⟩
  apply predict_item_none
  rw [Fin.sum_univ_one, item_similarity_self, abs_zero]

/-- C1 (amended): whenever the absolute similarity row-sum is nonzero, the
item-based prediction entry equals the spec formula
`Σ_j sim(i,j)·weight[u,j] / Σ_j |sim(i,j)|` (the code computes
`Σ_j weight[u,j]·sim(j,i)`, which is equal because the similarity matrix is
symmetric); whenever the absolute sum is zero, the entry is the unguarded
division's non-finite result (NaN), not 0. -/
theorem item_prediction_formula {I U : ℕ} (X : Fin I → Fin U → ℝ) (u : Fin U) (i : Fin I) :
    ((∑ j, |item_similarity X i j|) ≠ 0 →
      item_prediction X u i =
        some ((∑ j, item_similarity X i j * X j u) / (∑ j, |item_similarity X i j|))) ∧
    ((∑ j, |item_similarity X i j|) = 0 → item_prediction X u i = none) := by
  constructor
  · intro hden
    unfold item_prediction predict_item npDiv
    rw [if_neg hden]
    have hnum : (∑ j, transpose X u j * item_similarity X j i) =
        ∑ j, item_similarity X i j * X j u := by
      refine Finset.sum_congr rfl fun j _ => ?_
      unfold transpose item_similarity
      rw [pairwise_distances_comm X j i, mul_comm]
    rw [hnum]
  · exact predict_item_none (transpose X) (item_similarity X) u i

/-- Witness for C1 (amended), exercising the zero-denominator branch at the
concrete 1 × 1 matrix [[5]]. -/
theorem item_prediction_formula_witness :
    (∑ j, |item_similarity (![![(5 : ℝ)]] : Fin 1 → Fin 1 → ℝ) 0 j|) = 0 ∧
      item_prediction ![![(5 : ℝ)]] 0 0 = none := by
  have hden : (∑ j, |item_similarity (![![(5 : ℝ)]] : Fin 1 → Fin 1 → ℝ) 0 j|) = 0 := by
    rw [Fin.sum_univ_one, item_similarity_self, abs_zero]
  exact ⟨hden, (item_prediction_formula ![![(5 : ℝ)]] 0 0).2 hden⟩

/-- C2 counterexample: with a single user (the 2-item × 1-user matrix
[[5],[3]]) the user-similarity row is just the zero diagonal, the
denominator is 0, and the user-based prediction entry is non-finite NaN
(`none`) rather than the fallback mean 4 = (5 + 3)/2. -/
theorem user_prediction_zero_sum_not_mean :
    user_prediction ![![(5 : ℝ)], ![(3 : ℝ)]] 0 0 = none ∧
      mean_user_rating (transpose ![![(5 : ℝ)], ![(3 : ℝ)]]) 0 = 4 ∧
      (none : Option ℝ) ≠ some 4 := by
  refine ⟨?_, ?_, by simp⟩
  · apply predict_user_none
    rw [Fin.sum_univ_one, user_similarity_self, abs_zero]
  · unfold mean_user_rating transpose
    rw [Fin.sum_univ_two]
    norm_num

/-- C2 (amended): whenever the absolute similarity row-sum is nonzero, the
user-based prediction entry equals the spec formula
`meanU[u] + Σ_v sim(u,v)·(weight[v,i] - meanU[v]) / Σ_v |sim(u,v)|`, where
`meanU` is the mean of the full dense row, zeros included; whenever the
absolute sum is zero, the entry is non-finite NaN (adding `meanU[u]` to the
unguarded 0/0 stays NaN), not `meanU[u]`. -/
theorem user_prediction_formula {I U : ℕ} (X : Fin I → Fin U → ℝ) (u : Fin U) (i : Fin I) :
    ((∑ v, |user_similarity X u v|) ≠ 0 →
      user_prediction X u i =
        some (mean_user_rating (transpose X) u +
          (∑ v, user_similarity X u v * (X i v - mean_user_rating (transpose X) v)) /
            (∑ v, |user_similarity X u v|))) ∧
    ((∑ v, |user_similarity X u v|) = 0 → user_prediction X u i = none) := by
  constructor
  · intro hden
    unfold user_prediction predict_user npDiv
    rw [if_neg hden]
    rfl
  · exact predict_user_none (transpose X) (user_similarity X) u i

/-- Witness for C2 (amended), exercising the zero-denominator branch at the
concrete 2 × 1 matrix [[5],[3]]. -/
theorem user_prediction_formula_witness :
    (∑ v, |user_similarity (![![(5 : ℝ)], ![(3 : ℝ)]] : Fin 2 → Fin 1 → ℝ) 0 v|) = 0 ∧
      user_prediction ![![(5 : ℝ)], ![(3 : ℝ)]] 0 0 = none := by
  have hden :
      (∑ v, |user_similarity (![![(5 : ℝ)], ![(3 : ℝ)]] : Fin 2 → Fin 1 → ℝ) 0 v|) = 0 := by
    rw [Fin.sum_univ_one, user_similarity_self, abs_zero]
  exact ⟨hden, (user_prediction_formula ![![(5 : ℝ)], ![(3 : ℝ)]] 0 0).2 hden⟩

/-- C8: the no-NaN safety claim fails on the code: at the 1 × 1 interaction
matrix [[5]] both prediction branches perform an unguarded 0/0, so both
prediction matrices contain a non-finite NaN entry (`none`). -/
theorem prediction_nan_at_failing_input :
    item_prediction ![![(5 : ℝ)]] 0 0 = none ∧
      user_prediction ![![(5 : ℝ)]] 0 0 = none := by
  constructor
  · apply predict_item_none
    rw [Fin.sum_univ_one, item_similarity_self, abs_zero]
  · apply predict_user_none
    rw [Fin.sum_univ_one, user_similarity_self, abs_zero]

/-- Helper: the recommendation order is transitive. -/
theorem recommendLe_trans : ∀ a b c : String × ℚ,
    recommendLe a b → recommendLe b c → recommendLe a c := by
  intro a b c hab hbc
  simp only [recommendLe, Bool.or_eq_true, Bool.and_eq_true, decide_eq_true_eq,
    beq_iff_eq] at *
  rcases hab with h1 | ⟨h1, h2⟩ <;> rcases hbc with h3 | ⟨h3, h4⟩
  · exact Or.inl (h3.trans h1)
  · exact Or.inl (h3 ▸ h1)
  · exact Or.inl (h1 ▸ h3)
  · exact Or.inr ⟨h1.trans h3, h2.trans h4⟩

/-- Helper: the recommendation order is total. -/
theorem recommendLe_total : ∀ a b : String × ℚ, recommendLe a b || recommendLe b a := by
  intro a b
  simp only [recommendLe, Bool.or_eq_true, Bool.and_eq_true, decide_eq_true_eq, beq_iff_eq]
  rcases lt_trichotomy a.2 b.2 with h | h | h
  · exact Or.inr (Or.inl h)
  · rcases le_total a.1 b.1 with h' | h'
    · exact Or.inl (Or.inr ⟨h, h'⟩)
    · exact Or.inr (Or.inr ⟨h.symm, h'⟩)
  · exact Or.inl (Or.inl h)

/-- C9: `recommend` returns at most N pairs — exactly all eligible items
when fewer than N exist — contains no duplicate items provided the
prediction row lists each item once, and is sorted by descending predicted
score with ties broken by ascending item identifier. -/
theorem recommend_spec (row : List (String × ℚ)) (seen : List String) (ex : Bool) (N : ℕ)
    (hnd : (row.map Prod.fst).Nodup) :
    (recommend row seen ex N).length ≤ N ∧
      (recommend row seen ex N).length = min N (eligibleItems row seen ex).length ∧
      ((recommend row seen ex N).map Prod.fst).Nodup ∧
      (recommend row seen ex N).Pairwise
        (fun p q => q.2 < p.2 ∨ (p.2 = q.2 ∧ p.1 ≤ q.1)) := by
  have hlen : (recommend row seen ex N).length = min N (eligibleItems row seen ex).length := by
    unfold recommend
    rw [List.length_take, List.length_mergeSort]
  refine ⟨hlen ▸ Nat.min_le_left _ _, hlen, ?_, ?_⟩
  · have h1 : ((eligibleItems row seen ex).map Prod.fst).Nodup := by
      unfold eligibleItems
      split
      · exact hnd.sublist ((List.filter_sublist row).map Prod.fst)
      · exact hnd
    have h2 : (((eligibleItems row seen ex).mergeSort recommendLe).map Prod.fst).Nodup :=
      (((List.mergeSort_perm (eligibleItems row seen ex) recommendLe)).map Prod.fst).nodup_iff.mpr h1
    exact h2.sublist ((List.take_sublist N _).map Prod.fst)
  · have hs :=
      List.sorted_mergeSort recommendLe_trans recommendLe_total (eligibleItems row seen ex)
    have hs' := hs.sublist (List.take_sublist N _)
    refine hs'.imp ?_
    intro p q h
    simpa only [recommendLe, Bool.or_eq_true, Bool.and_eq_true, decide_eq_true_eq,
      beq_iff_eq] using h

/-- Witness for C9 at a concrete two-item row with the exclusion option set. -/
theorem recommend_spec_witness :
    (([("a", (2 : ℚ)), ("b", 1)] : List (String × ℚ)).map Prod.fst).Nodup ∧
      ((recommend [("a", 2), ("b", 1)] ["a"] true 1).length ≤ 1 ∧
        (recommend [("a", 2), ("b", 1)] ["a"] true 1).length =
          min 1 (eligibleItems [("a", 2), ("b", 1)] ["a"] true).length ∧
        ((recommend [("a", 2), ("b", 1)] ["a"] true 1).map Prod.fst).Nodup ∧
        (recommend [("a", 2), ("b", 1)] ["a"] true 1).Pairwise
          (fun p q => q.2 < p.2 ∨ (p.2 = q.2 ∧ p.1 ≤ q.1))) :=
  ⟨by decide, recommend_spec [("a", 2), ("b", 1)] ["a"] true 1 (by decide)⟩
